import Mathlib

/-
Verification of the AdAstrum exoplanet-classification pipeline.

The Python sources are shallowly embedded over exact rationals:
Python float arithmetic is modelled as real (exact) arithmetic on ℚ, a
Python float value that may be NaN or infinite is modelled by `FloatVal`,
a raised exception is modelled by `none` / `Except.error`, and CSV rows
are modelled as string association lists.  External library capabilities
(LightGBM, the sklearn pipeline fit/transform internals and the
StratifiedKFold splitter) are passed in as explicit parameters, exactly
where the source calls out to them.
-/

namespace Astrum

/-- Model of a Python float argument: either a finite value (an exact
rational) or one of the non-finite IEEE values, which is all that
`np.isfinite` distinguishes. -/
inductive FloatVal where
  | finite (q : ℚ)
  | nan
  | posInf
  | negInf
deriving DecidableEq, Repr

/-- Model of `np.isfinite` on a scalar. -/
def FloatVal.isFinite : FloatVal → Bool
  | .finite _ => true
  | _ => false

/-- Model of `np.clip(x, 0.0, 1.0)` on a finite value. -/
def clip01 (x : ℚ) : ℚ := min 1 (max 0 x)

namespace AstrumAI

/-- Embedding of `astrum_ai.common.compute_confidence`
(src/astrum_ai/common.py lines 161-200).  `none` models the
`ValueError` raised when `confirmed_threshold <= candidate_threshold`;
`some q` models returning the float `q`.  The source checks
`np.isfinite(probability)` BEFORE validating the thresholds and returns
`0.0` for non-finite input. -/
def computeConfidence (probability : FloatVal) (candidateThreshold confirmedThreshold : ℚ) :
    Option ℚ :=
  match probability with
  | .nan => some 0
  | .posInf => some 0
  | .negInf => some 0
  | .finite p =>
    if confirmedThreshold ≤ candidateThreshold then none
    else
      let candidate := candidateThreshold
      let confirmed := confirmedThreshold
      let prob := clip01 p
      let midpoint := candidate + (confirmed - candidate) / 2
      if prob < candidate then
        if candidate ≤ 0 then some 1
        else some (clip01 (1 - prob / candidate))
      else if prob < midpoint then
        let span := midpoint - candidate
        if span ≤ 0 then some (clip01 0)
        else
          let t := (prob - candidate) / span
          some (clip01 (4 * t * (1 - t)))
      else if prob < confirmed then
        let span := confirmed - midpoint
        if span ≤ 0 then some (clip01 0)
        else
          let t := (prob - midpoint) / span
          some (clip01 (4 * t * (1 - t)))
      else
        if 1 ≤ confirmed then some 1
        else
          let span := 1 - confirmed
          some (clip01 (if 0 < span then (prob - confirmed) / span else 1))

/-- Embedding of `astrum_ai.inference.assign_class`
(src/astrum_ai/inference.py lines 38-43). -/
def assignClass (probability candidateThreshold confirmedThreshold : ℚ) : Nat :=
  if confirmedThreshold ≤ probability then 2
  else if candidateThreshold ≤ probability then 1
  else 0

end AstrumAI

namespace Backend

/-- Embedding of `backend.model_service.compute_confidence`
(src/backend/model_service.py lines 13-52), a second copy of the same
function kept in the backend package; embedded separately so the two
copies can be compared. -/
def computeConfidence (probability : FloatVal) (candidateThreshold confirmedThreshold : ℚ) :
    Option ℚ :=
  match probability with
  | .nan => some 0
  | .posInf => some 0
  | .negInf => some 0
  | .finite p =>
    if confirmedThreshold ≤ candidateThreshold then none
    else
      let candidate := candidateThreshold
      let confirmed := confirmedThreshold
      let prob := clip01 p
      let midpoint := candidate + (confirmed - candidate) / 2
      if prob < candidate then
        if candidate ≤ 0 then some 1
        else some (clip01 (1 - prob / candidate))
      else if prob < midpoint then
        let span := midpoint - candidate
        if span ≤ 0 then some (clip01 0)
        else
          let t := (prob - candidate) / span
          some (clip01 (4 * t * (1 - t)))
      else if prob < confirmed then
        let span := confirmed - midpoint
        if span ≤ 0 then some (clip01 0)
        else
          let t := (prob - midpoint) / span
          some (clip01 (4 * t * (1 - t)))
      else
        if 1 ≤ confirmed then some 1
        else
          let span := 1 - confirmed
          some (clip01 (if 0 < span then (prob - confirmed) / span else 1))

/-- Embedding of `ModelService._assign_class`
(src/backend/model_service.py lines 222-237). -/
def assignClass (probability candidateThreshold confirmedThreshold : ℚ) : Nat :=
  if confirmedThreshold ≤ probability then 2
  else if candidateThreshold ≤ probability then 1
  else 0

end Backend

/-- The branch expression of `compute_confidence` for `prob < candidate`
(src/astrum_ai/common.py lines 176-179, with the final clip applied). -/
def confBranchLow (prob candidate : ℚ) : ℚ :=
  if candidate ≤ 0 then 1 else clip01 (1 - prob / candidate)

/-- The branch expression of `compute_confidence` for
`candidate <= prob < midpoint` (src/astrum_ai/common.py lines 180-186,
with the final clip applied). -/
def confBranchBumpLow (prob candidate confirmed : ℚ) : ℚ :=
  let midpoint := candidate + (confirmed - candidate) / 2
  let span := midpoint - candidate
  if span ≤ 0 then clip01 0
  else clip01 (4 * ((prob - candidate) / span) * (1 - (prob - candidate) / span))

/-- The branch expression of `compute_confidence` for
`midpoint <= prob < confirmed` (src/astrum_ai/common.py lines 187-193,
with the final clip applied). -/
def confBranchBumpHigh (prob candidate confirmed : ℚ) : ℚ :=
  let midpoint := candidate + (confirmed - candidate) / 2
  let span := confirmed - midpoint
  if span ≤ 0 then clip01 0
  else clip01 (4 * ((prob - midpoint) / span) * (1 - (prob - midpoint) / span))

/-- The branch expression of `compute_confidence` for `prob >= confirmed`
(src/astrum_ai/common.py lines 194-198, with the final clip applied). -/
def confBranchHigh (prob confirmed : ℚ) : ℚ :=
  if 1 ≤ confirmed then 1
  else clip01 (if 0 < 1 - confirmed then (prob - confirmed) / (1 - confirmed) else 1)

/-! Catalog adapter: string utilities, numeric coercion, mission specs and
row loading, embedded from src/astrum_ai/common.py and
src/astrum_ai/training.py. -/

/-- Characters stripped by Python `str.strip()` (whitespace). -/
def isPySpace (c : Char) : Bool :=
  c = ' ' ∨ c = '\t' ∨ c = '\n' ∨ c = '\r' ∨ c = '\x0b' ∨ c = '\x0c'

/-- Model of Python `str.strip()`: drop leading and trailing whitespace. -/
def pyStrip (s : String) : String :=
  ⟨(((s.data.dropWhile isPySpace).reverse.dropWhile isPySpace).reverse)⟩

/-- Model of Python `str.upper()` on the ASCII label vocabulary. -/
def pyUpper (s : String) : String := ⟨s.data.map Char.toUpper⟩

/-- Numeric value of a digit string (no validation). -/
def digitsValue (cs : List Char) : Nat :=
  cs.foldl (fun n c => 10 * n + (c.toNat - 48)) 0

/-- Exponent part of a float literal: optional sign followed by digits. -/
def parseExpPart (cs : List Char) : Option Int :=
  match cs with
  | '+' :: rest =>
    if rest ≠ [] ∧ rest.all Char.isDigit then some (Int.ofNat (digitsValue rest)) else none
  | '-' :: rest =>
    if rest ≠ [] ∧ rest.all Char.isDigit then some (-(Int.ofNat (digitsValue rest))) else none
  | _ =>
    if cs ≠ [] ∧ cs.all Char.isDigit then some (Int.ofNat (digitsValue cs)) else none

/-- Mantissa of a float literal: digits with an optional decimal point. -/
def parseMantissaPart (cs : List Char) : Option ℚ :=
  match cs.splitOn '.' with
  | [intPart] =>
    if intPart ≠ [] ∧ intPart.all Char.isDigit then some ((digitsValue intPart : ℚ)) else none
  | [intPart, fracPart] =>
    if (intPart ≠ [] ∨ fracPart ≠ []) ∧ intPart.all Char.isDigit ∧ fracPart.all Char.isDigit then
      some ((digitsValue intPart : ℚ) + (digitsValue fracPart : ℚ) / (10 : ℚ) ^ fracPart.length)
    else none
  | _ => none

/-- Unsigned float literal: mantissa with optional `e`-exponent. -/
def parseUnsignedFloat (cs : List Char) : Option ℚ :=
  match (cs.map Char.toLower).splitOn 'e' with
  | [m] => parseMantissaPart m
  | [m, ex] =>
    match parseMantissaPart m, parseExpPart ex with
    | some q, some e => some (q * (10 : ℚ) ^ e)
    | _, _ => none
  | _ => none

/-- Model of Python `float(s)` restricted to finite decimal notation, the
form catalog values take: optional sign, digits, optional fraction and
exponent.  `none` models a `ValueError` (and also the `inf`/`nan`
spellings, which `safe_float` would store as non-missing non-finite
values; no catalog uses them). -/
def parseDecimal (s : String) : Option ℚ :=
  match (pyStrip s).data with
  | '+' :: rest => parseUnsignedFloat rest
  | '-' :: rest => (parseUnsignedFloat rest).map Neg.neg
  | cs => parseUnsignedFloat cs

/-- Embedding of `astrum_ai.common.safe_float`
(src/astrum_ai/common.py lines 152-158).  A missing value (Python
`np.nan`) is modelled as `none`: `None` or the empty string coerce to
missing, as does unparseable text. -/
def safeFloat (value : Option String) : Option ℚ :=
  match value with
  | none => none
  | some s => if s = "" then none else parseDecimal s

/-- A raw CSV record: association list from column name to cell text, as
produced by `iter_csv_records`. -/
def RawRow := List (String × String)

/-- Model of `raw.get(key)` on a record. -/
def rowGet (raw : RawRow) (key : String) : Option String :=
  (raw.find? (fun kv => kv.1 == key)).map (fun kv => kv.2)

/-- Embedding of `astrum_ai.common.MissionSpec`
(src/astrum_ai/common.py lines 28-45). -/
structure MissionSpec where
  name : String
  filename : String
  labelField : String
  positiveLabels : List String
  negativeLabels : List String
  candidateLabels : List String
  featureMap : List (String × String)
  datasetType : String
  requiresDefaultFlag : Bool := false
deriving DecidableEq, Repr

/-- Embedding of `FEATURE_COLUMNS` (src/astrum_ai/common.py lines 10-25). -/
def featureColumns : List String :=
  ["orbital_period", "transit_duration", "transit_depth", "impact_parameter",
   "eccentricity", "inclination", "planet_radius", "planet_equilibrium_temp",
   "insolation_flux", "stellar_temp", "stellar_logg", "stellar_radius",
   "stellar_mass", "stellar_metallicity"]

/-- The Kepler entry of `MISSION_SPECS` (src/astrum_ai/common.py lines 49-73). -/
def keplerSpec : MissionSpec where
  name := "kepler"
  filename := "kepler.csv"
  labelField := "koi_disposition"
  positiveLabels := ["CONFIRMED"]
  negativeLabels := ["FALSE POSITIVE"]
  candidateLabels := ["CANDIDATE"]
  featureMap :=
    [("orbital_period", "koi_period"), ("transit_duration", "koi_duration"),
     ("transit_depth", "koi_depth"), ("impact_parameter", "koi_impact"),
     ("eccentricity", "koi_eccen"), ("inclination", "koi_incl"),
     ("planet_radius", "koi_prad"), ("planet_equilibrium_temp", "koi_teq"),
     ("insolation_flux", "koi_insol"), ("stellar_temp", "koi_steff"),
     ("stellar_logg", "koi_slogg"), ("stellar_radius", "koi_srad"),
     ("stellar_mass", "koi_smass"), ("stellar_metallicity", "koi_smet")]
  datasetType := "kepler"

/-- The raw-to-canonical column mapping shared by the K2 and TOI entries
(src/astrum_ai/common.py lines 81-96 and 107-122). -/
def toiK2FeatureMap : List (String × String) :=
  [("orbital_period", "pl_orbper"), ("transit_duration", "pl_trandur"),
   ("transit_depth", "pl_trandep"), ("impact_parameter", "pl_imppar"),
   ("eccentricity", "pl_orbeccen"), ("inclination", "pl_orbincl"),
   ("planet_radius", "pl_rade"), ("planet_equilibrium_temp", "pl_eqt"),
   ("insolation_flux", "pl_insol"), ("stellar_temp", "st_teff"),
   ("stellar_logg", "st_logg"), ("stellar_radius", "st_rad"),
   ("stellar_mass", "st_mass"), ("stellar_metallicity", "st_met")]

/-- The K2 entry of `MISSION_SPECS` (src/astrum_ai/common.py lines 74-99). -/
def k2Spec : MissionSpec where
  name := "k2"
  filename := "k2.csv"
  labelField := "disposition"
  positiveLabels := ["CONFIRMED"]
  negativeLabels := ["FALSE POSITIVE", "REFUTED"]
  candidateLabels := ["CANDIDATE"]
  featureMap := toiK2FeatureMap
  datasetType := "toi_k2"
  requiresDefaultFlag := true

/-- The TOI entry of `MISSION_SPECS` (src/astrum_ai/common.py lines 100-124). -/
def toiSpec : MissionSpec where
  name := "toi"
  filename := "toi.csv"
  labelField := "tfopwg_disp"
  positiveLabels := ["CP", "KP"]
  negativeLabels := ["FP", "FA"]
  candidateLabels := ["PC", "APC"]
  featureMap := toiK2FeatureMap
  datasetType := "toi_k2"

/-- Embedding of `MISSION_SPECS` (src/astrum_ai/common.py lines 48-125). -/
def missionSpecs : List MissionSpec := [keplerSpec, k2Spec, toiSpec]

/-- One loaded training example, the row dictionary built by
`load_mission` (src/astrum_ai/training.py lines 78-86): canonical
features (in `feature_map` key order, `none` = NaN) plus label metadata. -/
structure TrainRecord where
  features : List (String × Option ℚ)
  label : Nat
  isCandidate : Bool
  mission : String
  datasetType : String
  disposition : String
deriving DecidableEq, Repr

/-- The default-parameter-set gate of `load_mission`
(src/astrum_ai/training.py lines 61-63): when the spec requires it, the
stripped `default_flag` cell must be one of 1, TRUE, true. -/
def passesDefaultFlag (spec : MissionSpec) (raw : RawRow) : Bool :=
  !spec.requiresDefaultFlag ||
    ["1", "TRUE", "true"].contains (pyStrip ((rowGet raw "default_flag").getD ""))

/-- The label-resolution chain of `load_mission`
(src/astrum_ai/training.py lines 64-77), applied to the already
uppercase-trimmed label value: empty or unmatched values yield no
example; positive is checked first, then negative, then candidate. -/
def resolveLabel (spec : MissionSpec) (labelValue : String) : Option (Nat × Bool) :=
  if labelValue = "" then none
  else if labelValue ∈ spec.positiveLabels then some (1, false)
  else if labelValue ∈ spec.negativeLabels then some (0, false)
  else if labelValue ∈ spec.candidateLabels then some (1, true)
  else none

/-- The uppercase-trimmed label value of a row:
`(raw.get(spec.label_field) or "").strip().upper()`
(src/astrum_ai/training.py line 64). -/
def normLabel (spec : MissionSpec) (raw : RawRow) : String :=
  pyUpper (pyStrip ((rowGet raw spec.labelField).getD ""))

/-- The per-row body of `load_mission` (src/astrum_ai/training.py lines
60-86): gate on the default flag, resolve the label, extract the 14
canonical features through `safe_float`, and drop the row if every
feature is missing. -/
def processRow (spec : MissionSpec) (raw : RawRow) : Option TrainRecord :=
  if !passesDefaultFlag spec raw then none
  else
    let labelValue := normLabel spec raw
    match resolveLabel spec labelValue with
    | none => none
    | some lc =>
      let record := spec.featureMap.map (fun fs => (fs.1, safeFloat (rowGet raw fs.2)))
      if record.all (fun fv => fv.2.isNone) then none
      else some
        { features := record
          label := lc.1
          isCandidate := lc.2
          mission := spec.name
          datasetType := spec.datasetType
          disposition := labelValue }

/-- Embedding of `load_mission` (src/astrum_ai/training.py lines 54-94)
over an in-memory row list: the rows accumulated into the mission frame.
(The file-existence check and the DataFrame column selection carry no
information at this level.) -/
def loadMission (spec : MissionSpec) (rows : List RawRow) : List TrainRecord :=
  rows.filterMap (processRow spec)

/-- Embedding of `load_all_missions` (src/astrum_ai/training.py lines
97-105).  `datasets` maps a dataset filename to its parsed rows; empty
frames are skipped, and an entirely empty result raises RuntimeError. -/
def loadAllMissions (datasets : String → List RawRow) :
    Except String (List (String × List TrainRecord)) :=
  let frames := (missionSpecs.map
    (fun spec => (spec.name, loadMission spec (datasets spec.filename)))).filter
      (fun p => !p.2.isEmpty)
  if frames.isEmpty then Except.error "No data loaded; check file paths and formats."
  else Except.ok frames

/-- Embedding of `load_training_frame` (src/astrum_ai/training.py lines
108-130): keep candidate rows only when `include_candidates` is set,
drop empty frames, and concatenate. -/
def loadTrainingFrame (datasets : String → List RawRow) (includeCandidates : Bool) :
    Except String (List TrainRecord) :=
  match loadAllMissions datasets with
  | Except.error e => Except.error e
  | Except.ok frames =>
    let processed := (frames.map
      (fun p => if includeCandidates then p.2 else p.2.filter (fun r => !r.isCandidate))).filter
        (fun l => !l.isEmpty)
    if processed.isEmpty then
      Except.error "No data available after filtering. Check dataset availability and filters."
    else Except.ok processed.flatten

/-! Shared-classifier trainer: embedding of the training pipeline of
src/astrum_ai/training.py.  LightGBM, the sklearn fit internals and the
StratifiedKFold splitter are external capabilities passed as explicit
parameters at exactly the call sites the source has. -/

/-- A feature row in canonical column order (`none` = NaN). -/
abbrev FeatRow := List (Option ℚ)

/-- Canonical feature projection of a loaded record
(`data[FEATURE_COLUMNS]`, src/astrum_ai/training.py line 338). -/
def featureRow (r : TrainRecord) : FeatRow :=
  featureColumns.map (fun c => (r.features.lookup c).getD none)

/-- An opaque fitted boosting model: only its positive-class probability
output `model.predict_proba(X)[:, 1]` is observable. -/
structure LgbModel where
  predictProba : List (List ℚ) → List ℚ

/-- The optional LightGBM capability (the guarded
`import lightgbm as lgb`, src/astrum_ai/training.py lines 17-20):
`none` models the library being absent.  `fit` models
`LGBMClassifier(...).fit(X, y, sample_weight=w)`; the fixed
hyperparameters live inside the opaque capability. -/
structure LgbCapability where
  fit : List (List ℚ) → List Nat → List ℚ → LgbModel

/-- Embedding of `train_lightgbm` (src/astrum_ai/training.py lines
151-174): returns `none` when the capability is unavailable, the fitted
model otherwise. -/
def trainLightgbm (lgb : Option LgbCapability) (X : List (List ℚ)) (y : List Nat)
    (w : List ℚ) : Option LgbModel :=
  lgb.map (fun cap => cap.fit X y w)

/-- The scaler `build_preprocessor` selects
(src/astrum_ai/training.py lines 177-188): StandardScaler for the
kepler group, RobustScaler(quantile_range=(10.0, 90.0)) otherwise; both
sit behind a median SimpleImputer. -/
inductive ScalerKind where
  | standard
  | robust
deriving DecidableEq, Repr

/-- Embedding of `build_preprocessor` (src/astrum_ai/training.py lines
177-188), at the level of which pipeline is built. -/
def buildPreprocessor (datasetType : String) : ScalerKind :=
  if datasetType = "kepler" then ScalerKind.standard else ScalerKind.robust

/-- A fitted sklearn pipeline: the scaler kind it was built with plus the
opaque fitted transform (the imputation and scaling statistics are
internal to sklearn and inspected by no claim). -/
structure Pipeline where
  kind : ScalerKind
  transform : List FeatRow → List (List ℚ)

/-- The sklearn fitting capability: produces the fitted transform of a
pipeline of the given kind from its fitting matrix
(`pipeline.fit(...)`). -/
structure SklearnCapability where
  fitPipeline : ScalerKind → List FeatRow → (List FeatRow → List (List ℚ))

/-- Model of Python `sorted(set(xs))` (and of `np.unique`): the distinct
elements in ascending order. -/
def sortedUnique {α : Type} [DecidableEq α] [LinearOrder α] (l : List α) : List α :=
  List.insertionSort (fun a b => a ≤ b) l.dedup

/-- The rows of `values` whose aligned dataset type equals `dtype`
(the boolean-mask subsetting of the source). -/
def maskRows {β : Type} (values : List β) (datasetTypes : List String) (dtype : String) :
    List β :=
  ((values.zip datasetTypes).filter (fun p => p.2 == dtype)).map (fun p => p.1)

/-- Embedding of `fit_group_pipelines` (src/astrum_ai/training.py lines
191-211): one pipeline per distinct dataset type, fitted on that
group's rows only. -/
def fitGroupPipelines (skl : SklearnCapability) (features : List FeatRow)
    (datasetTypes : List String) : Except String (List (String × Pipeline)) :=
  if features.length ≠ datasetTypes.length then
    Except.error "features and dataset_types must align in length."
  else
    let uniqueTypes := sortedUnique datasetTypes
    let pipelines := uniqueTypes.filterMap (fun dtype =>
      let sub := maskRows features datasetTypes dtype
      if sub.isEmpty then none
      else some (dtype,
        { kind := buildPreprocessor dtype
          transform := skl.fitPipeline (buildPreprocessor dtype) sub }))
    if pipelines.isEmpty then
      Except.error "Unable to fit preprocessing pipelines; no dataset types produced data."
    else Except.ok pipelines

/-- Embedding of `prepare_features` (src/astrum_ai/training.py lines
214-238): transform each dataset-type block with its group pipeline,
append the group-id indicator column, and reassemble the rows in their
original order.  A dataset type without a pipeline, or absent from
`type_to_id`, raises KeyError. -/
def prepareFeatures (features : List FeatRow) (datasetTypes : List String)
    (pipelines : List (String × Pipeline)) (typeToId : List (String × Nat)) :
    Except String (List (List ℚ)) :=
  if features.length ≠ datasetTypes.length then
    Except.error "features and dataset_types must align in length."
  else
    let uniq := sortedUnique datasetTypes
    match uniq.find? (fun d => (pipelines.lookup d).isNone) with
    | some d => Except.error ("Missing preprocessing pipeline for dataset type " ++ d)
    | none =>
      match uniq.find? (fun d => (typeToId.lookup d).isNone) with
      | some d => Except.error ("KeyError: " ++ d)
      | none =>
        let blocks := uniq.map (fun d =>
          let idxs := (List.range features.length).filter
            (fun i => datasetTypes[i]? == some d)
          let sub := idxs.filterMap (fun i => features[i]?)
          let out := match pipelines.lookup d with
            | some pipe => pipe.transform sub
            | none => []
          (idxs, out.map (fun row => row ++ [(((typeToId.lookup d).getD 0 : Nat) : ℚ)])))
        Except.ok ((List.range features.length).map (fun i =>
          match blocks.find? (fun b => b.1.contains i) with
          | some b => (b.2[b.1.indexOf i]?).getD []
          | none => []))

/-- Evaluation metrics of one fold (`compute_metrics`,
src/astrum_ai/training.py lines 133-140). -/
structure Metrics where
  accuracy : ℚ
  rocAuc : ℚ
  avgPrecision : ℚ
  brier : ℚ
deriving DecidableEq, Repr

/-- `accuracy_score` after the 0.5 probability cut of compute_metrics. -/
def accuracyScore (yTrue : List Nat) (probs : List ℚ) : ℚ :=
  let preds := probs.map (fun p => if (1 : ℚ)/2 ≤ p then 1 else 0)
  (((yTrue.zip preds).filter (fun p => p.1 == p.2)).length : ℚ) / (yTrue.length : ℚ)

/-- `roc_auc_score` as the Mann-Whitney pair statistic (ties weigh 1/2);
total where sklearn raises on a single-class fold (division by zero
yields 0). -/
def rocAucScore (yTrue : List Nat) (probs : List ℚ) : ℚ :=
  let pairs := yTrue.zip probs
  let pos := (pairs.filter (fun p => p.1 == 1)).map (fun p => p.2)
  let neg := (pairs.filter (fun p => p.1 != 1)).map (fun p => p.2)
  let s := (pos.map (fun a => (neg.map (fun b =>
    if b < a then (1 : ℚ) else if b = a then 1/2 else 0)).sum)).sum
  s / ((pos.length : ℚ) * (neg.length : ℚ))

/-- One step of `average_precision_score` at threshold `t`: the recall
increment times the precision of predicting positive at `p ≥ t`. -/
def apStep (pairs : List (Nat × ℚ)) (pcount : Nat) (t : ℚ) (prevTP : Nat) : ℚ × Nat :=
  let tp := (pairs.filter (fun p => p.1 == 1 && decide (t ≤ p.2))).length
  let predPos := (pairs.filter (fun p => decide (t ≤ p.2))).length
  (((tp : ℚ) - (prevTP : ℚ)) / (pcount : ℚ) * ((tp : ℚ) / (predPos : ℚ)), tp)

/-- `average_precision_score`: the step-sum over descending distinct
score thresholds. -/
def avgPrecisionScore (yTrue : List Nat) (probs : List ℚ) : ℚ :=
  let pairs := yTrue.zip probs
  let pcount := (pairs.filter (fun p => p.1 == 1)).length
  let thresholds := (sortedUnique probs).reverse
  (thresholds.foldl (fun acc t =>
    let st := apStep pairs pcount t acc.2
    (acc.1 + st.1, st.2)) ((0 : ℚ), (0 : Nat))).1

/-- `brier_score_loss`: mean squared distance of probability to label. -/
def brierScore (yTrue : List Nat) (probs : List ℚ) : ℚ :=
  (((yTrue.zip probs).map (fun p => (p.2 - (p.1 : ℚ)) ^ 2)).sum) / (yTrue.length : ℚ)

/-- Embedding of `compute_metrics` (src/astrum_ai/training.py lines
133-140). -/
def computeMetrics (yTrue : List Nat) (probs : List ℚ) : Metrics where
  accuracy := accuracyScore yTrue probs
  rocAuc := rocAucScore yTrue probs
  avgPrecision := avgPrecisionScore yTrue probs
  brier := brierScore yTrue probs

/-- One fold of a splitter: (train indices, validation indices). -/
abbrev Fold := List Nat × List Nat

/-- The held-out labels a fold is scored on: `labels[val_idx]`
(src/astrum_ai/training.py line 262). -/
def cvFoldValLabels (labels : List Nat) (fold : Fold) : List Nat :=
  fold.2.filterMap (fun i => labels[i]?)

/-- The held-out records of a fold: the training-frame rows at
`val_idx`. -/
def cvValRecords (frame : List TrainRecord) (fold : Fold) : List TrainRecord :=
  fold.2.filterMap (fun i => frame[i]?)

/-- The per-dataset-type metric accumulation of the fold loop
(src/astrum_ai/training.py lines 280-285): each type present among the
held-out rows receives the fold's subgroup metrics. -/
def perTypeUpdate (valTypes : List String) (yVal : List Nat) (valProb : List ℚ)
    (acc : List (String × List Metrics)) : List (String × List Metrics) :=
  acc.map (fun p =>
    let mask := valTypes.map (fun t => t == p.1)
    if mask.any id then
      (p.1, p.2 ++ [computeMetrics
        (((yVal.zip mask).filter (fun q => q.2)).map (fun q => q.1))
        (((valProb.zip mask).filter (fun q => q.2)).map (fun q => q.1))])
    else p)

/-- The fold loop of `cross_validate_shared_model`
(src/astrum_ai/training.py lines 258-287): per fold, fit fresh group
pipelines and a fresh model on the training rows only, then score the
held-out rows; `ok ([], [])` models the early `return [], {}` taken when
LightGBM is unavailable. -/
def cvFoldLoop (skl : SklearnCapability) (lgb : Option LgbCapability)
    (features : List FeatRow) (labels : List Nat) (datasetTypes : List String)
    (typeToId : List (String × Nat)) :
    List Fold → List Metrics → List (String × List Metrics) →
    Except String (List Metrics × List (String × List Metrics))
  | [], accF, accT => Except.ok (accF, accT)
  | fold :: rest, accF, accT => do
    let trainFeatures := fold.1.filterMap (fun i => features[i]?)
    let valFeatures := fold.2.filterMap (fun i => features[i]?)
    let yTrain := fold.1.filterMap (fun i => labels[i]?)
    let yVal := cvFoldValLabels labels fold
    let trainTypes := fold.1.filterMap (fun i => datasetTypes[i]?)
    let valTypes := fold.2.filterMap (fun i => datasetTypes[i]?)
    let pipelines ← fitGroupPipelines skl trainFeatures trainTypes
    let xTrain ← prepareFeatures trainFeatures trainTypes pipelines typeToId
    let xVal ← prepareFeatures valFeatures valTypes pipelines typeToId
    let wTrain := yTrain.map (fun _ => (1 : ℚ))
    match trainLightgbm lgb xTrain yTrain wTrain with
    | none => Except.ok ([], [])
    | some model =>
      let valProb := model.predictProba xVal
      let metrics := computeMetrics yVal valProb
      cvFoldLoop skl lgb features labels datasetTypes typeToId rest
        (accF ++ [metrics]) (perTypeUpdate valTypes yVal valProb accT)

/-- Embedding of `cross_validate_shared_model`
(src/astrum_ai/training.py lines 247-287).  `folds` is the output of the
StratifiedKFold splitter, an external capability. -/
def crossValidateSharedModel (skl : SklearnCapability) (lgb : Option LgbCapability)
    (features : List FeatRow) (labels : List Nat) (datasetTypes : List String)
    (typeToId : List (String × Nat)) (folds : List Fold) :
    Except String (List Metrics × List (String × List Metrics)) :=
  cvFoldLoop skl lgb features labels datasetTypes typeToId folds []
    (typeToId.map (fun p => (p.1, [])))

/-- The dense id assignment of `train_models`
(src/astrum_ai/training.py lines 342-343):
`{dtype: idx for idx, dtype in enumerate(sorted(set(dataset_types)))}`. -/
def mkTypeToId (datasetTypes : List String) : List (String × Nat) :=
  ((sortedUnique datasetTypes).enum).map (fun p => (p.2, p.1))

/-- The persisted preprocessing bundle (`save_preprocessors`,
src/astrum_ai/training.py lines 290-305). -/
structure PreprocessorBundle where
  pipelines : List (String × Pipeline)
  typeToId : List (String × Nat)
  idToType : List (Nat × String)
  featureColumns : List String

/-- An artifact written to the model directory by a training run. -/
inductive SavedArtifact where
  | sharedModel (model : LgbModel)
  | preprocessors (bundle : PreprocessorBundle)

/-- Embedding of `train_models` (src/astrum_ai/training.py lines
334-402).  The first component lists the artifacts persisted by
`save_shared_model` and `save_preprocessors` in write order; an
`Except.error` outcome models an exception leaving train_models, after
which nothing further is written.  The printed `summarize_folds`
aggregation is presentation only; the raw per-fold metrics are
returned. -/
def trainModels (skl : SklearnCapability) (lgb : Option LgbCapability)
    (splitter : Nat → List Nat → List Fold)
    (datasets : String → List RawRow) (includeCandidates : Bool) (nSplits : Nat) :
    List SavedArtifact × Except String (List Metrics × List (String × List Metrics)) :=
  match loadTrainingFrame datasets includeCandidates with
  | Except.error e => ([], Except.error e)
  | Except.ok data =>
    let features := data.map featureRow
    let labels := data.map (fun r => r.label)
    let datasetTypes := data.map (fun r => r.datasetType)
    let typeToId := mkTypeToId datasetTypes
    let folds := splitter nSplits labels
    match crossValidateSharedModel skl lgb features labels datasetTypes typeToId folds with
    | Except.error e => ([], Except.error e)
    | Except.ok foldResults =>
      if foldResults.1.isEmpty then
        ([], Except.error "Cross-validation aborted; LightGBM may be unavailable.")
      else
        match fitGroupPipelines skl features datasetTypes with
        | Except.error e => ([], Except.error e)
        | Except.ok pipelines =>
          match prepareFeatures features datasetTypes pipelines typeToId with
          | Except.error e => ([], Except.error e)
          | Except.ok xAll =>
            match trainLightgbm lgb xAll labels (labels.map (fun _ => (1 : ℚ))) with
            | none =>
              ([], Except.error
                "LightGBM is required to train the shared model but is not installed.")
            | some finalModel =>
              ([SavedArtifact.sharedModel finalModel,
                SavedArtifact.preprocessors
                  { pipelines := pipelines
                    typeToId := typeToId
                    idToType := typeToId.map (fun p => (p.2, p.1))
                    featureColumns := Astrum.featureColumns }],
               Except.ok foldResults)

/-- The defining property of a k-fold splitter's output on n rows (the
StratifiedKFold contract): every index below n lies in exactly one
validation fold, and each fold's training indices are exactly the
complement of its validation indices. -/
def IsKFoldSplit (n : Nat) (folds : List Fold) : Prop :=
  folds ≠ [] ∧
  (∀ fold ∈ folds, ∀ i ∈ fold.2, i < n) ∧
  (∀ fold ∈ folds, ∀ i, i < n → (i ∈ fold.1 ↔ i ∉ fold.2)) ∧
  (∀ i, i < n → folds.countP (fun fold => fold.2.contains i) = 1)

instance decidableIsKFoldSplit (n : Nat) (folds : List Fold) :
    Decidable (IsKFoldSplit n folds) := by
  unfold IsKFoldSplit; infer_instance

/-- The record `process_row` produces for a Kepler row that carries only
the `koi_period` feature; used to state concrete test inputs. -/
def mkKeplerRec (disp : String) (lbl : Nat) (cand : Bool) (period : ℚ) : TrainRecord where
  features := keplerSpec.featureMap.map
    (fun fs => (fs.1, if fs.2 == "koi_period" then some period else none))
  label := lbl
  isCandidate := cand
  mission := "kepler"
  datasetType := "kepler"
  disposition := disp

/-- A four-row Kepler catalog whose last row is candidate-labelled. -/
def c1Datasets : String → List RawRow := fun fn =>
  if fn = "kepler.csv" then
    [[("koi_disposition", "CONFIRMED"), ("koi_period", "1")],
     [("koi_disposition", "FALSE POSITIVE"), ("koi_period", "2")],
     [("koi_disposition", "CONFIRMED"), ("koi_period", "3")],
     [("koi_disposition", "CANDIDATE"), ("koi_period", "4")]]
  else []

/-- The frame `load_training_frame` produces from `c1Datasets` with
include_candidates=true. -/
def c1Frame : List TrainRecord :=
  [mkKeplerRec "CONFIRMED" 1 false 1,
   mkKeplerRec "FALSE POSITIVE" 0 false 2,
   mkKeplerRec "CONFIRMED" 1 false 3,
   mkKeplerRec "CANDIDATE" 1 true 4]

/-- A valid 2-fold split of four rows. -/
def c1Folds : List Fold := [([2, 3], [0, 1]), ([0, 1], [2, 3])]

/-- A two-row Kepler catalog without candidates, for the C1 witness. -/
def c1wDatasets : String → List RawRow := fun fn =>
  if fn = "kepler.csv" then
    [[("koi_disposition", "CONFIRMED"), ("koi_period", "1")],
     [("koi_disposition", "FALSE POSITIVE"), ("koi_period", "2")]]
  else []

/-- The frame loaded from `c1wDatasets` with include_candidates=false. -/
def c1wFrame : List TrainRecord :=
  [mkKeplerRec "CONFIRMED" 1 false 1,
   mkKeplerRec "FALSE POSITIVE" 0 false 2]

/-- A valid 2-fold split of two rows. -/
def c1wFolds : List Fold := [([1], [0]), ([0], [1])]

/-- A concrete sklearn capability whose fitted transforms map every cell
to 0; used to witness runs of the trainer. -/
def c7Skl : SklearnCapability :=
  ⟨fun _ _ => fun rows => rows.map (fun r => r.map (fun _ => (0 : ℚ)))⟩

/-- A concrete boosting capability whose fitted model predicts
probability 1 for every row; used to witness runs of the trainer. -/
def c7Lgb : LgbCapability :=
  ⟨fun _ _ _ => ⟨fun rows => rows.map (fun _ => (1 : ℚ))⟩⟩

/-- A single-fold splitter: train on row 0, validate on row 1. -/
def c7Splitter : Nat → List Nat → List Fold := fun _ _ => [([0], [1])]

/-- The evaluation report of the witnessed training run. -/
def c7Res : List Metrics × List (String × List Metrics) :=
  ([⟨0, 0, 0, 1⟩], [("kepler", [⟨0, 0, 0, 1⟩])])

namespace Backend

/-- Embedding of `backend.model_service._safe_float`
(src/backend/model_service.py lines 182-189): None, the empty string,
NaN and unparseable text coerce to missing. -/
def safeFloat (value : Option String) : Option ℚ :=
  match value with
  | none => none
  | some s => if s = "" then none else parseDecimal s

/-- Embedding of `_TOI_K2_FEATURE_MAP`
(src/backend/model_service.py lines 74-89), the backend's own copy. -/
def toiK2Map : List (String × String) :=
  [("orbital_period", "pl_orbper"), ("transit_duration", "pl_trandur"),
   ("transit_depth", "pl_trandep"), ("impact_parameter", "pl_imppar"),
   ("eccentricity", "pl_orbeccen"), ("inclination", "pl_orbincl"),
   ("planet_radius", "pl_rade"), ("planet_equilibrium_temp", "pl_eqt"),
   ("insolation_flux", "pl_insol"), ("stellar_temp", "st_teff"),
   ("stellar_logg", "st_logg"), ("stellar_radius", "st_rad"),
   ("stellar_mass", "st_mass"), ("stellar_metallicity", "st_met")]

/-- Embedding of `FEATURE_MAPS` (src/backend/model_service.py lines
91-111). -/
def featureMaps : List (String × List (String × String)) :=
  [("kepler",
    [("orbital_period", "koi_period"), ("transit_duration", "koi_duration"),
     ("transit_depth", "koi_depth"), ("impact_parameter", "koi_impact"),
     ("eccentricity", "koi_eccen"), ("inclination", "koi_incl"),
     ("planet_radius", "koi_prad"), ("planet_equilibrium_temp", "koi_teq"),
     ("insolation_flux", "koi_insol"), ("stellar_temp", "koi_steff"),
     ("stellar_logg", "koi_slogg"), ("stellar_radius", "koi_srad"),
     ("stellar_mass", "koi_smass"), ("stellar_metallicity", "koi_smet")]),
   ("k2", toiK2Map), ("toi", toiK2Map), ("tess", toiK2Map)]

/-- Embedding of `DATASET_TYPE_MAP` (src/backend/model_service.py lines
113-118): the fixed format-to-group mapping. -/
def datasetTypeMap : List (String × String) :=
  [("kepler", "kepler"), ("k2", "toi_k2"), ("toi", "toi_k2"), ("tess", "toi_k2")]

/-- The exceptions `ModelService.predict` can raise. -/
inductive PredictError where
  | valueError (msg : String)
  | keyError (msg : String)
  | runtimeError (msg : String)
deriving DecidableEq, Repr

/-- The `hyperparams` dict of `ModelService.predict`: `.get` with the
defaults 0.4 and 0.7 (src/backend/model_service.py lines 257-259). -/
structure Hyperparams where
  candidateThreshold : Option ℚ := none
  confirmedThreshold : Option ℚ := none

/-- The in-memory state `ModelService._load_artifacts` leaves behind
(src/backend/model_service.py lines 138-180): the loaded bundle contents
and the shared model. -/
structure ModelService where
  pipelines : List (String × Pipeline)
  typeToId : List (String × Nat)
  model : Option LgbModel
  featureColumns : List String

/-- One row of `ModelService._prepare_features`
(src/backend/model_service.py lines 191-220): canonical features through
the format's map and `_safe_float`, reindexed by the bundle's feature
columns. -/
def prepRow (featureMap : List (String × String)) (cols : List String)
    (raw : RawRow) : List (Option ℚ) :=
  let record := featureMap.map (fun fs => (fs.1, Backend.safeFloat (rowGet raw fs.2)))
  cols.map (fun c => (record.lookup c).getD none)

/-- Embedding of `ModelService.predict`
(src/backend/model_service.py lines 239-314): validate thresholds,
prepare features, resolve the dataset-type group, fail hard on a group
missing from the bundle (pipeline first, then id), transform, append the
group indicator, score, and pair each row's class with its confidence.
(The id column and NaN-to-None cosmetics of the output frame carry no
information and are not modelled.)  The `getD 0` on the confidence is
unreachable: the thresholds were already validated. -/
def ModelService.predict (svc : ModelService) (df : List RawRow)
    (formatName : String) (hp : Hyperparams) :
    Except PredictError (List (Nat × ℚ)) :=
  let candidateThreshold := hp.candidateThreshold.getD (2/5)
  let confirmedThreshold := hp.confirmedThreshold.getD (7/10)
  if confirmedThreshold ≤ candidateThreshold then
    Except.error (PredictError.valueError
      "confirmed_threshold must be greater than candidate_threshold")
  else
    match featureMaps.lookup formatName with
    | none => Except.error (PredictError.valueError ("Unknown format " ++ formatName))
    | some featureMap =>
      let featuresDf := df.map (prepRow featureMap svc.featureColumns)
      match datasetTypeMap.lookup formatName with
      | none => Except.error (PredictError.valueError ("Unknown format " ++ formatName))
      | some datasetType =>
        match svc.pipelines.lookup datasetType with
        | none => Except.error (PredictError.keyError
            ("No preprocessing pipeline available for dataset type " ++ datasetType))
        | some pipeline =>
          match svc.typeToId.lookup datasetType with
          | none => Except.error (PredictError.keyError
              ("Dataset type " ++ datasetType ++ " missing from shared model metadata."))
          | some typeIndex =>
            let transformed := pipeline.transform featuresDf
            let prepared := transformed.map (fun row => row ++ [(typeIndex : ℚ)])
            match svc.model with
            | none => Except.error (PredictError.runtimeError
                "Shared model is not loaded. Retrain the model and restart the service.")
            | some model =>
              let probabilities := model.predictProba prepared
              Except.ok (probabilities.map (fun p =>
                (Backend.assignClass p candidateThreshold confirmedThreshold,
                 (Backend.computeConfidence (FloatVal.finite p)
                   candidateThreshold confirmedThreshold).getD 0)))

end Backend

/-- A fitted serving pipeline mapping every cell of every row to 0, used
by the C5 witness service state. -/
def c5Pipe : Pipeline :=
  ⟨ScalerKind.standard, fun rows => rows.map (fun r => r.map (fun _ => (0 : ℚ)))⟩

/-- A service whose bundle holds only the kepler group. -/
def c5Service : Backend.ModelService :=
  { pipelines := [("kepler", c5Pipe)]
    typeToId := [("kepler", 0)]
    model := some ⟨fun rows => rows.map (fun _ => (1 : ℚ)/2)⟩
    featureColumns := featureColumns }

/-- A raw Kepler row whose label cell is a padded lowercase candidate
string, used to witness C8. -/
def c8Raw : RawRow := [("koi_disposition", " candidate ")]

/-- A raw Kepler row with a valid label but no feature cells at all, used
to witness C9. -/
def c9Raw : RawRow := [("koi_disposition", "CONFIRMED")]

/-! Theorems: the ten claims, their witnesses and counterexamples, and
the supporting lemmas. -/

theorem clip01_nonneg (x : ℚ) : 0 ≤ clip01 x :=
  le_min (by norm_num) (le_max_left 0 x)

theorem clip01_le_one (x : ℚ) : clip01 x ≤ 1 := min_le_left _ _

theorem clip01_zero : clip01 0 = 0 := by unfold clip01; norm_num

theorem mem_of_getElem?_eq {α : Type} {l : List α} {i : Nat} {a : α}
    (h : l[i]? = some a) : a ∈ l := by
  obtain ⟨hl, rfl⟩ := List.getElem?_eq_some_iff.mp h
  exact List.getElem_mem hl

theorem loadTrainingFrame_false_no_candidates
    (datasets : String → List RawRow) (data : List TrainRecord)
    (hdata : loadTrainingFrame datasets false = Except.ok data) :
    ∀ r ∈ data, r.isCandidate = false := by
  simp only [loadTrainingFrame, Bool.false_eq_true, if_false] at hdata
  split at hdata
  · exact absurd hdata (by simp)
  · split at hdata
    · exact absurd hdata (by simp)
    · injection hdata with hdata
      subst hdata
      intro r hr
      rw [List.mem_flatten] at hr
      obtain ⟨l, hl, hrl⟩ := hr
      rw [List.mem_filter] at hl
      obtain ⟨hl', _⟩ := hl
      rw [List.mem_map] at hl'
      obtain ⟨p, _, rfl⟩ := hl'
      rw [List.mem_filter] at hrl
      simpa using hrl.2

/-- C1 (amended): candidate rows are absent from evaluation folds exactly
because with include_candidates=false (the default) load_training_frame
removes them from the cross-validation frame altogether: every record of
that frame is non-candidate, hence every validation fold of any k-fold
split scores only non-candidate rows, the held-out labels being those of
the held-out records.  With include_candidates=true candidate rows enter
the frame and do land in evaluation folds (see the counterexample). -/
theorem C1_no_candidate_in_eval_folds_iff_excluded
    (datasets : String → List RawRow) (data : List TrainRecord) (folds : List Fold)
    (hdata : loadTrainingFrame datasets false = Except.ok data)
    (hsplit : IsKFoldSplit data.length folds) :
    (∀ r ∈ data, r.isCandidate = false) ∧
    ∀ fold ∈ folds,
      (∀ r ∈ cvValRecords data fold, r.isCandidate = false) ∧
      cvFoldValLabels (data.map (fun r => r.label)) fold =
        (cvValRecords data fold).map (fun r => r.label) := by
  have hnc := loadTrainingFrame_false_no_candidates datasets data hdata
  refine ⟨hnc, ?_⟩
  intro fold _
  constructor
  · intro r hr
    rcases List.mem_filterMap.mp hr with ⟨i, _, heq⟩
    exact hnc r (mem_of_getElem?_eq heq)
  · unfold cvFoldValLabels cvValRecords
    rw [List.map_filterMap]
    exact List.filterMap_congr (fun i _ => List.getElem?_map ..)

/-- C1 counterexample: with include_candidates=true the candidate row
stays in the cross-validation frame, the 2-fold split is a valid k-fold
partition, and the second fold's held-out records — the rows the fold's
metrics are computed on — include the candidate-flagged example, whose
label 1 appears among the held-out labels. -/
theorem C1_counterexample :
    loadTrainingFrame c1Datasets true = Except.ok c1Frame ∧
    IsKFoldSplit c1Frame.length c1Folds ∧
    ([0, 1], [2, 3]) ∈ c1Folds ∧
    (cvValRecords c1Frame ([0, 1], [2, 3])).any (fun r => r.isCandidate) = true ∧
    cvFoldValLabels (c1Frame.map (fun r => r.label)) ([0, 1], [2, 3]) = [1, 1] := by
  refine ⟨by rfl, by decide, by decide, by rfl, by rfl⟩

/-- Witness for C1 on a concrete candidate-free run. -/
theorem C1_no_candidate_witness :
    (loadTrainingFrame c1wDatasets false = Except.ok c1wFrame) ∧
    IsKFoldSplit c1wFrame.length c1wFolds ∧
    ((∀ r ∈ c1wFrame, r.isCandidate = false) ∧
      ∀ fold ∈ c1wFolds,
        (∀ r ∈ cvValRecords c1wFrame fold, r.isCandidate = false) ∧
        cvFoldValLabels (c1wFrame.map (fun r => r.label)) fold =
          (cvValRecords c1wFrame fold).map (fun r => r.label)) :=
  have hdata : loadTrainingFrame c1wDatasets false = Except.ok c1wFrame := by rfl
  have hsplit : IsKFoldSplit c1wFrame.length c1wFolds := by decide
  ⟨hdata, hsplit,
    C1_no_candidate_in_eval_folds_iff_excluded c1wDatasets c1wFrame c1wFolds hdata hsplit⟩

theorem cvFoldLoop_lgb_none_fold_metrics (skl : SklearnCapability)
    (features : List FeatRow) (labels : List Nat) (datasetTypes : List String)
    (typeToId : List (String × Nat)) (folds : List Fold)
    (accT : List (String × List Metrics)) (fm : List Metrics)
    (pt : List (String × List Metrics))
    (h : cvFoldLoop skl none features labels datasetTypes typeToId folds [] accT =
      Except.ok (fm, pt)) : fm = [] := by
  cases folds with
  | nil =>
    simp only [cvFoldLoop, Except.ok.injEq, Prod.mk.injEq] at h
    exact h.1.symm
  | cons fold rest =>
    simp only [cvFoldLoop, bind, Except.bind] at h
    split at h
    · exact absurd h (by simp)
    · split at h
      · exact absurd h (by simp)
      · split at h
        · exact absurd h (by simp)
        · simp only [trainLightgbm, Option.map] at h
          simp only [Except.ok.injEq, Prod.mk.injEq] at h
          exact h.1.symm

/-- C6: when the LightGBM capability is absent, every training run
aborts with an error and persists nothing: no shared model file, no
preprocessor bundle, no fallback model. -/
theorem C6_no_lightgbm_aborts_without_artifacts (skl : SklearnCapability)
    (splitter : Nat → List Nat → List Fold) (datasets : String → List RawRow)
    (includeCandidates : Bool) (nSplits : Nat) :
    (trainModels skl none splitter datasets includeCandidates nSplits).1 = [] ∧
    (trainModels skl none splitter datasets includeCandidates nSplits).2.isOk = false := by
  suffices h : ∀ p, trainModels skl none splitter datasets includeCandidates nSplits = p →
      p.1 = [] ∧ p.2.isOk = false by
    exact h _ rfl
  intro p hp
  simp only [trainModels] at hp
  split at hp
  · rw [← hp]; exact ⟨rfl, rfl⟩
  next data heqData =>
    split at hp
    · rw [← hp]; exact ⟨rfl, rfl⟩
    next foldResults heqCv =>
      have hfm : foldResults.1 = [] := by
        apply cvFoldLoop_lgb_none_fold_metrics skl (data.map featureRow)
          (data.map (fun r => r.label)) (data.map (fun r => r.datasetType))
          (mkTypeToId (data.map (fun r => r.datasetType)))
          (splitter nSplits (data.map (fun r => r.label)))
          ((mkTypeToId (data.map (fun r => r.datasetType))).map (fun q => (q.1, [])))
          foldResults.1 foldResults.2
        exact heqCv
      rw [if_pos (by rw [hfm]; rfl)] at hp
      rw [← hp]
      exact ⟨rfl, rfl⟩

theorem lookup_isSome_of_mem_fst {β : Type} (l : List (String × β)) (k : String)
    (h : k ∈ l.map Prod.fst) : (l.lookup k).isSome := by
  induction l with
  | nil => simp at h
  | cons p rest ih =>
    simp only [List.map_cons, List.mem_cons] at h
    by_cases hk : (k == p.1) = true
    · simp [List.lookup, hk]
    · rcases h with h | h
      · exact absurd (beq_iff_eq.mpr h) hk
      · simp [List.lookup, hk, ih h]

theorem mem_sortedUnique {α : Type} [DecidableEq α] [LinearOrder α] (l : List α) (a : α) :
    a ∈ sortedUnique l ↔ a ∈ l := by
  unfold sortedUnique
  rw [(List.perm_insertionSort _ _).mem_iff, List.mem_dedup]

theorem sortedUnique_sorted {α : Type} [DecidableEq α] [LinearOrder α] (l : List α) :
    List.Sorted (fun a b => a ≤ b) (sortedUnique l) := List.sorted_insertionSort _ _

theorem sortedUnique_perm_invariant {α : Type} [DecidableEq α] [LinearOrder α]
    {l l' : List α} (h : l.Perm l') : sortedUnique l = sortedUnique l' :=
  List.eq_of_perm_of_sorted
    ((List.perm_insertionSort _ _).trans (h.dedup.trans (List.perm_insertionSort _ _).symm))
    (sortedUnique_sorted l) (sortedUnique_sorted l')

theorem mkTypeToId_keys (l : List String) :
    (mkTypeToId l).map Prod.fst = sortedUnique l := by
  unfold mkTypeToId
  rw [List.map_map]
  have h : (Prod.fst ∘ fun p : Nat × String => (p.2, p.1)) = Prod.snd := rfl
  rw [h, List.enum_map_snd]

theorem mkTypeToId_ids (l : List String) :
    (mkTypeToId l).map Prod.snd = List.range (mkTypeToId l).length := by
  unfold mkTypeToId
  rw [List.map_map, List.length_map]
  have h : (Prod.snd ∘ fun p : Nat × String => (p.2, p.1)) = Prod.fst := rfl
  rw [h, List.enum_map_fst, List.enum_length]

theorem mkTypeToId_perm_invariant {l l' : List String} (h : l.Perm l') :
    mkTypeToId l = mkTypeToId l' := by
  unfold mkTypeToId
  rw [sortedUnique_perm_invariant h]

theorem maskRows_isEmpty_false (features : List FeatRow) (datasetTypes : List String)
    (d : String) (hlen : features.length = datasetTypes.length) (hd : d ∈ datasetTypes) :
    (maskRows features datasetTypes d).isEmpty = false := by
  obtain ⟨j, hj, hdj⟩ := List.mem_iff_getElem.mp hd
  have hjf : j < features.length := by omega
  have hjz : j < (features.zip datasetTypes).length := by
    rw [List.length_zip]; omega
  have hmem : (features[j], d) ∈ (features.zip datasetTypes).filter (fun p => p.2 == d) := by
    rw [List.mem_filter]
    refine ⟨?_, by simp⟩
    have hz : (features.zip datasetTypes)[j] = (features[j], datasetTypes[j]) :=
      List.getElem_zip ..
    rw [← hdj, ← hz]
    exact List.getElem_mem hjz
  have hmm : features[j] ∈ maskRows features datasetTypes d :=
    List.mem_map.mpr ⟨_, hmem, rfl⟩
  cases hmask : maskRows features datasetTypes d with
  | nil => rw [hmask] at hmm; simp at hmm
  | cons a as => rfl

theorem fitGroupPipelines_covers (skl : SklearnCapability) (features : List FeatRow)
    (datasetTypes : List String) (pipes : List (String × Pipeline))
    (h : fitGroupPipelines skl features datasetTypes = Except.ok pipes) :
    ∀ d ∈ datasetTypes, (pipes.lookup d).isSome := by
  intro d hd
  simp only [fitGroupPipelines] at h
  split at h
  · exact absurd h (by simp)
  next hlen =>
    have hlen' : features.length = datasetTypes.length := by
      omega
    split at h
    · exact absurd h (by simp)
    · injection h with h
      subst h
      apply lookup_isSome_of_mem_fst
      rw [List.mem_map]
      refine ⟨(d, { kind := buildPreprocessor d
                    transform := skl.fitPipeline (buildPreprocessor d)
                      (maskRows features datasetTypes d) }), ?_, rfl⟩
      apply List.mem_filterMap.mpr
      refine ⟨d, (mem_sortedUnique _ _).mpr hd, ?_⟩
      rw [maskRows_isEmpty_false features datasetTypes d hlen' hd]
      rfl

/-- C7: every successful training run persists exactly the shared model
followed by the preprocessor bundle; the bundle's type_to_id lists the
sorted distinct dataset-type keys of the training frame with the
consecutive ids 0..n-1 — a function of the key multiset alone, hence
unchanged under any reordering of the training rows — and every group
key present in the frame owns both a fitted pipeline and an id in the
bundle. -/
theorem C7_bundle_dense_sorted_ids
    (skl : SklearnCapability) (lgb : Option LgbCapability)
    (splitter : Nat → List Nat → List Fold) (datasets : String → List RawRow)
    (includeCandidates : Bool) (nSplits : Nat) (data : List TrainRecord)
    (res : List Metrics × List (String × List Metrics))
    (hdata : loadTrainingFrame datasets includeCandidates = Except.ok data)
    (hok : (trainModels skl lgb splitter datasets includeCandidates nSplits).2 =
      Except.ok res) :
    ∃ model bundle,
      (trainModels skl lgb splitter datasets includeCandidates nSplits).1 =
        [SavedArtifact.sharedModel model, SavedArtifact.preprocessors bundle] ∧
      bundle.typeToId = mkTypeToId (data.map (fun r => r.datasetType)) ∧
      bundle.typeToId.map Prod.fst = sortedUnique (data.map (fun r => r.datasetType)) ∧
      bundle.typeToId.map Prod.snd = List.range bundle.typeToId.length ∧
      (∀ other : List TrainRecord, other.Perm data →
        mkTypeToId (other.map (fun r => r.datasetType)) = bundle.typeToId) ∧
      (∀ d ∈ data.map (fun r => r.datasetType),
        (bundle.pipelines.lookup d).isSome ∧ (bundle.typeToId.lookup d).isSome) := by
  cases hrun : trainModels skl lgb splitter datasets includeCandidates nSplits with
  | mk arts outcome =>
    rw [hrun] at hok
    simp only at hok
    subst hok
    simp only [trainModels, hdata] at hrun
    split at hrun
    · exact absurd (congrArg Prod.snd hrun).symm (by simp)
    next foldResults heqCv =>
      split at hrun
      · exact absurd (congrArg Prod.snd hrun).symm (by simp)
      · split at hrun
        · exact absurd (congrArg Prod.snd hrun).symm (by simp)
        next pipes heqPipes =>
          split at hrun
          · exact absurd (congrArg Prod.snd hrun).symm (by simp)
          next xAll heqPrep =>
            split at hrun
            · exact absurd (congrArg Prod.snd hrun).symm (by simp)
            next finalModel heqFit =>
              have harts := (congrArg Prod.fst hrun).symm
              simp only at harts
              refine ⟨finalModel, _, harts, rfl, ?_, ?_, ?_, ?_⟩
              · exact mkTypeToId_keys _
              · exact mkTypeToId_ids _
              · intro other hperm
                exact mkTypeToId_perm_invariant (hperm.map (fun r => r.datasetType))
              · intro d hd
                constructor
                · have := fitGroupPipelines_covers skl (data.map featureRow)
                    (data.map (fun r => r.datasetType)) pipes heqPipes d hd
                  exact this
                · apply lookup_isSome_of_mem_fst
                  rw [mkTypeToId_keys, mem_sortedUnique]
                  exact hd

theorem c7_computeMetrics_eval : computeMetrics [0] [1] = (⟨0, 0, 0, 1⟩ : Metrics) := by
  unfold computeMetrics accuracyScore rocAucScore avgPrecisionScore brierScore apStep
    sortedUnique
  norm_num [List.filter_cons, List.filter_nil, List.dedup, List.insertionSort,
    List.orderedInsert]

/-- Witness for C7: a complete successful training run over a two-row
Kepler catalog, a single-fold splitter and concrete capabilities. -/
theorem C7_bundle_witness :
    (loadTrainingFrame c1wDatasets false = Except.ok c1wFrame) ∧
    ((trainModels c7Skl (some c7Lgb) c7Splitter c1wDatasets false 2).2 =
      Except.ok c7Res) ∧
    (∃ model bundle,
      (trainModels c7Skl (some c7Lgb) c7Splitter c1wDatasets false 2).1 =
        [SavedArtifact.sharedModel model, SavedArtifact.preprocessors bundle] ∧
      bundle.typeToId = mkTypeToId (c1wFrame.map (fun r => r.datasetType)) ∧
      bundle.typeToId.map Prod.fst = sortedUnique (c1wFrame.map (fun r => r.datasetType)) ∧
      bundle.typeToId.map Prod.snd = List.range bundle.typeToId.length ∧
      (∀ other : List TrainRecord, other.Perm c1wFrame →
        mkTypeToId (other.map (fun r => r.datasetType)) = bundle.typeToId) ∧
      (∀ d ∈ c1wFrame.map (fun r => r.datasetType),
        (bundle.pipelines.lookup d).isSome ∧ (bundle.typeToId.lookup d).isSome)) :=
  have hd : loadTrainingFrame c1wDatasets false = Except.ok c1wFrame := rfl
  have hcv : crossValidateSharedModel c7Skl (some c7Lgb) (c1wFrame.map featureRow)
      (c1wFrame.map (fun r => r.label)) (c1wFrame.map (fun r => r.datasetType))
      (mkTypeToId (c1wFrame.map (fun r => r.datasetType)))
      (c7Splitter 2 (c1wFrame.map (fun r => r.label))) = Except.ok c7Res := by
    have h0 : crossValidateSharedModel c7Skl (some c7Lgb) (c1wFrame.map featureRow)
        (c1wFrame.map (fun r => r.label)) (c1wFrame.map (fun r => r.datasetType))
        (mkTypeToId (c1wFrame.map (fun r => r.datasetType)))
        (c7Splitter 2 (c1wFrame.map (fun r => r.label))) =
        Except.ok ([computeMetrics [0] [1]], [("kepler", [computeMetrics [0] [1]])]) := rfl
    rw [h0, c7_computeMetrics_eval]
    rfl
  have hok : (trainModels c7Skl (some c7Lgb) c7Splitter c1wDatasets false 2).2 =
      Except.ok c7Res := by
    simp only [trainModels, hd]
    rw [hcv]
    rfl
  ⟨hd, hok,
    C7_bundle_dense_sorted_ids c7Skl (some c7Lgb) c7Splitter c1wDatasets false 2
      c1wFrame c7Res hd hok⟩

/-- C5: with valid thresholds, whenever the dataset-type group resolved
from the catalog format lacks a preprocessing pipeline or an integer id
in the loaded bundle, ModelService.predict raises a KeyError: no row of
the batch receives a prediction and no other group's pipeline or id is
substituted. -/
theorem C5_missing_group_fails_hard (svc : Backend.ModelService) (df : List RawRow)
    (formatName : String) (hp : Backend.Hyperparams) (datasetType : String)
    (hthr : hp.candidateThreshold.getD (2/5) < hp.confirmedThreshold.getD (7/10))
    (hdt : Backend.datasetTypeMap.lookup formatName = some datasetType)
    (hmiss : (svc.pipelines.lookup datasetType).isNone = true ∨
      (svc.typeToId.lookup datasetType).isNone = true) :
    ∃ msg, svc.predict df formatName hp =
      Except.error (Backend.PredictError.keyError msg) := by
  have hfm : (Backend.featureMaps.lookup formatName).isSome = true := by
    simp only [Backend.datasetTypeMap, Backend.featureMaps, List.lookup] at hdt ⊢
    split at hdt
    · simp
    · split at hdt
      · simp_all
      · split at hdt
        · simp_all
        · split at hdt
          · simp_all
          · exact absurd hdt (by simp)
  simp only [Backend.ModelService.predict]
  rw [if_neg (not_le.mpr hthr)]
  cases hfm' : Backend.featureMaps.lookup formatName with
  | none => rw [hfm'] at hfm; simp at hfm
  | some featureMap =>
    simp only [hfm', hdt]
    rcases hmiss with hmp | hmi
    · rw [Option.isNone_iff_eq_none] at hmp
      simp only [hmp]
      exact ⟨_, rfl⟩
    · cases hmp : svc.pipelines.lookup datasetType with
      | none => simp only [hmp]; exact ⟨_, rfl⟩
      | some pipeline =>
        rw [Option.isNone_iff_eq_none] at hmi
        simp only [hmp, hmi]
        exact ⟨_, rfl⟩

/-- Witness for C5: scoring a K2 batch against a bundle trained only on
the kepler group raises a KeyError. -/
theorem C5_missing_group_witness :
    ((Backend.Hyperparams.mk none none).candidateThreshold.getD (2/5) <
      (Backend.Hyperparams.mk none none).confirmedThreshold.getD (7/10)) ∧
    Backend.datasetTypeMap.lookup "k2" = some "toi_k2" ∧
    ((c5Service.pipelines.lookup "toi_k2").isNone = true ∨
      (c5Service.typeToId.lookup "toi_k2").isNone = true) ∧
    ∃ msg, c5Service.predict [[("pl_orbper", "3")]] "k2" (Backend.Hyperparams.mk none none) =
      Except.error (Backend.PredictError.keyError msg) :=
  have hthr : (Backend.Hyperparams.mk none none).candidateThreshold.getD (2/5) <
      (Backend.Hyperparams.mk none none).confirmedThreshold.getD (7/10) := by norm_num
  have hdt : Backend.datasetTypeMap.lookup "k2" = some "toi_k2" := rfl
  have hmiss : ((c5Service.pipelines.lookup "toi_k2").isNone = true ∨
      (c5Service.typeToId.lookup "toi_k2").isNone = true) := Or.inl rfl
  ⟨hthr, hdt, hmiss,
    C5_missing_group_fails_hard c5Service [[("pl_orbper", "3")]] "k2"
      (Backend.Hyperparams.mk none none) "toi_k2" hthr hdt hmiss⟩

/-- C3: with candidate_threshold = 0.4 and confirmed_threshold = 0.7 the
decision policy returns (class 0, confidence 1/2) at p = 0.2,
(class 1, confidence 8/9) at p = 0.5, and (class 2, confidence 1/6) at
p = 0.75 — the spec's mandated literal recomputation of the third vector. -/
theorem C3_decision_vectors :
    AstrumAI.computeConfidence (.finite (1/5)) (2/5) (7/10) = some (1/2) ∧
    AstrumAI.assignClass (1/5) (2/5) (7/10) = 0 ∧
    AstrumAI.computeConfidence (.finite (1/2)) (2/5) (7/10) = some (8/9) ∧
    AstrumAI.assignClass (1/2) (2/5) (7/10) = 1 ∧
    AstrumAI.computeConfidence (.finite (3/4)) (2/5) (7/10) = some (1/6) ∧
    AstrumAI.assignClass (3/4) (2/5) (7/10) = 2 := by
  refine ⟨?_, ?_, ?_, ?_, ?_, ?_⟩ <;> norm_num [AstrumAI.computeConfidence, AstrumAI.assignClass, clip01, max_def, min_def]

/-- C2 counterexample: the claim quantifies over every threshold pair with
f > c.  At (c, f) = (1/2, 1) the two branch formulas adjacent to the
boundary p = f disagree there (0 versus 1) and the confidence function
itself jumps from below 1/50 at p = 0.999 to 1 at p = 1; and at
(c, f) = (0, 1/2) the two formulas adjacent to p = c disagree (1 versus 0). -/
theorem C2_counterexample :
    (1:ℚ)/2 < 1 ∧
    confBranchBumpHigh 1 (1/2) 1 = 0 ∧
    confBranchHigh 1 1 = 1 ∧
    AstrumAI.computeConfidence (.finite 1) (1/2) 1 = some 1 ∧
    AstrumAI.computeConfidence (.finite (999/1000)) (1/2) 1 = some (249/15625) ∧
    (249:ℚ)/15625 < 1/50 ∧
    (0:ℚ) < 1/2 ∧
    confBranchLow 0 0 = 1 ∧
    confBranchBumpLow 0 0 (1/2) = 0 := by
  refine ⟨?_, ?_, ?_, ?_, ?_, ?_, ?_, ?_, ?_⟩ <;> norm_num [AstrumAI.computeConfidence, confBranchBumpHigh, confBranchBumpLow, confBranchHigh, confBranchLow, clip01, max_def, min_def]

/-- C2 (amended): for every p and every threshold pair with f > c the
decision policy returns a class in 0..2 and every confidence it returns
lies in 0..1; and provided additionally 0 < c and f < 1, the formulas of
the two adjacent branches evaluate to equal values (namely 0) at each of
the three boundaries p = c, p = midpoint and p = f. -/
theorem C2_policy_range_and_boundary_continuity (p c f : ℚ) (hcf : c < f) :
    (AstrumAI.assignClass p c f = 0 ∨ AstrumAI.assignClass p c f = 1 ∨
      AstrumAI.assignClass p c f = 2) ∧
    (∀ (v : FloatVal) (q : ℚ), AstrumAI.computeConfidence v c f = some q →
      0 ≤ q ∧ q ≤ 1) ∧
    (0 < c → f < 1 →
      confBranchLow c c = confBranchBumpLow c c f ∧
      confBranchBumpLow (c + (f - c) / 2) c f = confBranchBumpHigh (c + (f - c) / 2) c f ∧
      confBranchBumpHigh f c f = confBranchHigh f f) := by
  refine ⟨?_, ?_, ?_⟩
  · unfold AstrumAI.assignClass
    split_ifs <;> simp
  · intro v q h
    cases v with
    | nan =>
      simp only [AstrumAI.computeConfidence, Option.some.injEq] at h
      subst h; norm_num
    | posInf =>
      simp only [AstrumAI.computeConfidence, Option.some.injEq] at h
      subst h; norm_num
    | negInf =>
      simp only [AstrumAI.computeConfidence, Option.some.injEq] at h
      subst h; norm_num
    | finite r =>
      simp only [AstrumAI.computeConfidence] at h
      rw [if_neg (not_le.mpr hcf)] at h
      split_ifs at h <;> injection h with h <;> subst h <;>
        first
          | exact ⟨clip01_nonneg _, clip01_le_one _⟩
          | exact ⟨zero_le_one, le_rfl⟩
  · intro hc hf
    have hspan : (0:ℚ) < (f - c) / 2 := by linarith
    refine ⟨?_, ?_, ?_⟩
    · have h1 : confBranchLow c c = 0 := by
        unfold confBranchLow
        rw [if_neg (not_le.mpr hc), div_self (ne_of_gt hc)]
        simpa using clip01_zero
      have h2 : confBranchBumpLow c c f = 0 := by
        simp only [confBranchBumpLow]
        rw [if_neg (by linarith : ¬ c + (f - c) / 2 - c ≤ 0)]
        rw [sub_self, zero_div]
        simpa using clip01_zero
      rw [h1, h2]
    · have hml : confBranchBumpLow (c + (f - c) / 2) c f = 0 := by
        simp only [confBranchBumpLow]
        rw [if_neg (by linarith : ¬ c + (f - c) / 2 - c ≤ 0)]
        have ht : (c + (f - c) / 2 - c) / (c + (f - c) / 2 - c) = 1 :=
          div_self (by linarith)
        rw [ht]
        simpa using clip01_zero
      have hmh : confBranchBumpHigh (c + (f - c) / 2) c f = 0 := by
        simp only [confBranchBumpHigh]
        rw [if_neg (by linarith : ¬ f - (c + (f - c) / 2) ≤ 0)]
        rw [sub_self, zero_div]
        simpa using clip01_zero
      rw [hml, hmh]
    · have hfh : confBranchBumpHigh f c f = 0 := by
        simp only [confBranchBumpHigh]
        rw [if_neg (by linarith : ¬ f - (c + (f - c) / 2) ≤ 0)]
        have ht : (f - (c + (f - c) / 2)) / (f - (c + (f - c) / 2)) = 1 :=
          div_self (by linarith)
        rw [ht]
        simpa using clip01_zero
      have hh : confBranchHigh f f = 0 := by
        unfold confBranchHigh
        rw [if_neg (not_le.mpr hf), if_pos (by linarith : (0:ℚ) < 1 - f)]
        rw [sub_self, zero_div]
        exact clip01_zero
      rw [hfh, hh]

/-- Witness for C2 at p = 1/2, c = 2/5, f = 7/10. -/
theorem C2_policy_witness :
    (2:ℚ)/5 < 7/10 ∧
    ((AstrumAI.assignClass (1/2) (2/5) (7/10) = 0 ∨
      AstrumAI.assignClass (1/2) (2/5) (7/10) = 1 ∨
      AstrumAI.assignClass (1/2) (2/5) (7/10) = 2) ∧
     (∀ (v : FloatVal) (q : ℚ),
        AstrumAI.computeConfidence v (2/5) (7/10) = some q → 0 ≤ q ∧ q ≤ 1) ∧
     ((0:ℚ) < 2/5 → (7:ℚ)/10 < 1 →
        confBranchLow (2/5) (2/5) = confBranchBumpLow (2/5) (2/5) (7/10) ∧
        confBranchBumpLow (2/5 + (7/10 - 2/5) / 2) (2/5) (7/10) =
          confBranchBumpHigh (2/5 + (7/10 - 2/5) / 2) (2/5) (7/10) ∧
        confBranchBumpHigh (7/10) (2/5) (7/10) = confBranchHigh (7/10) (7/10))) :=
  ⟨by norm_num, C2_policy_range_and_boundary_continuity (1/2) (2/5) (7/10) (by norm_num)⟩

/-- C4 counterexample: the claim says the threshold violation is surfaced
for every input including non-finite ones; but for a NaN probability and
thresholds with f = 3/10 ≤ 1/2 = c the function returns confidence 0.0
instead of raising, because the finiteness check precedes the threshold
validation. -/
theorem C4_counterexample :
    (3:ℚ)/10 ≤ 1/2 ∧
    AstrumAI.computeConfidence .nan (1/2) (3/10) = some 0 := by
  refine ⟨?_, ?_⟩ <;> norm_num [AstrumAI.computeConfidence]

/-- C4 (amended): for every FINITE probability and every threshold pair
with confirmed_threshold ≤ candidate_threshold, compute_confidence raises
ValueError (returns no confidence value); a non-finite probability instead
short-circuits to confidence 0.0 before the thresholds are validated. -/
theorem C4_invalid_thresholds_raise (q c f : ℚ) (h : f ≤ c) :
    AstrumAI.computeConfidence (.finite q) c f = none := by
  rw [AstrumAI.computeConfidence, if_pos h]

/-- Witness for C4 at q = 1/4, c = 1/2, f = 3/10. -/
theorem C4_invalid_thresholds_witness :
    (3:ℚ)/10 ≤ 1/2 ∧
    AstrumAI.computeConfidence (.finite (1/4)) (1/2) (3/10) = none :=
  ⟨by norm_num, C4_invalid_thresholds_raise (1/4) (1/2) (3/10) (by norm_num)⟩

theorem resolveLabel_none_of_unmatched (spec : MissionSpec) (v : String)
    (h1 : v ∉ spec.positiveLabels) (h2 : v ∉ spec.negativeLabels)
    (h3 : v ∉ spec.candidateLabels) : resolveLabel spec v = none := by
  unfold resolveLabel
  split_ifs <;> rfl

theorem processRow_none_of_resolve_none (spec : MissionSpec) (raw : RawRow)
    (h : resolveLabel spec (normLabel spec raw) = none) :
    processRow spec raw = none := by
  simp only [processRow]
  split
  · rfl
  · rw [h]

theorem processRow_some_spec (spec : MissionSpec) (raw : RawRow) (rec : TrainRecord)
    (h : processRow spec raw = some rec) :
    resolveLabel spec (normLabel spec raw) = some (rec.label, rec.isCandidate) ∧
    rec.disposition = normLabel spec raw ∧
    rec.mission = spec.name ∧
    rec.datasetType = spec.datasetType ∧
    rec.features = spec.featureMap.map (fun fs => (fs.1, safeFloat (rowGet raw fs.2))) := by
  simp only [processRow] at h
  split at h
  · exact absurd h (by simp)
  · split at h
    · exact absurd h (by simp)
    next lc heq =>
      split at h
      · exact absurd h (by simp)
      · injection h with h
        subst h
        exact ⟨by rw [heq], rfl, rfl, rfl, rfl⟩

/-- C8: for every catalog and every row, the uppercase-trimmed label
value is mapped by the label-resolution chain as: positive set gives
label 1 and is_candidate false; negative set gives label 0 and
is_candidate false; candidate set gives label 1 and is_candidate true;
any other value (the empty one included) yields no example, the row being
dropped entirely; and every example a row does produce carries exactly
the resolved label pair. -/
theorem C8_label_resolution (spec : MissionSpec) (hspec : spec ∈ missionSpecs) (raw : RawRow) :
    (normLabel spec raw ∈ spec.positiveLabels →
      resolveLabel spec (normLabel spec raw) = some (1, false)) ∧
    (normLabel spec raw ∈ spec.negativeLabels →
      resolveLabel spec (normLabel spec raw) = some (0, false)) ∧
    (normLabel spec raw ∈ spec.candidateLabels →
      resolveLabel spec (normLabel spec raw) = some (1, true)) ∧
    (normLabel spec raw ∉ spec.positiveLabels →
      normLabel spec raw ∉ spec.negativeLabels →
      normLabel spec raw ∉ spec.candidateLabels →
      processRow spec raw = none) ∧
    (∀ rec : TrainRecord, processRow spec raw = some rec →
      resolveLabel spec (normLabel spec raw) = some (rec.label, rec.isCandidate)) := by
  simp only [missionSpecs, List.mem_cons, List.not_mem_nil, or_false] at hspec
  refine ⟨?_, ?_, ?_, ?_, ?_⟩
  · intro hv
    rcases hspec with rfl | rfl | rfl <;>
      simp only [keplerSpec, k2Spec, toiSpec, List.mem_cons, List.not_mem_nil, or_false] at hv ⊢ <;>
      (try rcases hv with hv | hv) <;> rw [hv] <;> decide
  · intro hv
    rcases hspec with rfl | rfl | rfl <;>
      simp only [keplerSpec, k2Spec, toiSpec, List.mem_cons, List.not_mem_nil, or_false] at hv ⊢ <;>
      (try rcases hv with hv | hv) <;> rw [hv] <;> decide
  · intro hv
    rcases hspec with rfl | rfl | rfl <;>
      simp only [keplerSpec, k2Spec, toiSpec, List.mem_cons, List.not_mem_nil, or_false] at hv ⊢ <;>
      (try rcases hv with hv | hv) <;> rw [hv] <;> decide
  · intro h1 h2 h3
    exact processRow_none_of_resolve_none spec raw
      (resolveLabel_none_of_unmatched spec _ h1 h2 h3)
  · intro rec h
    exact (processRow_some_spec spec raw rec h).1

/-- Witness for C8 at the Kepler catalog: the normalized label lands in
the candidate set and resolves to label 1 with is_candidate true. -/
theorem C8_label_resolution_witness :
    keplerSpec ∈ missionSpecs ∧
    normLabel keplerSpec c8Raw ∈ keplerSpec.candidateLabels ∧
    resolveLabel keplerSpec (normLabel keplerSpec c8Raw) = some (1, true) :=
  have hm : keplerSpec ∈ missionSpecs := List.mem_cons_self _ _
  have hc : normLabel keplerSpec c8Raw ∈ keplerSpec.candidateLabels := by decide
  ⟨hm, hc, (C8_label_resolution keplerSpec hm c8Raw).2.2.1 hc⟩

/-- C9: a row all of whose 14 extracted canonical feature values are
missing yields no training example, whatever its label: processRow drops
it, and inserting such a row anywhere in a mission file leaves the
loaded frame unchanged. -/
theorem C9_all_missing_row_dropped (spec : MissionSpec) (raw : RawRow)
    (h : ∀ fs ∈ spec.featureMap, safeFloat (rowGet raw fs.2) = none) :
    processRow spec raw = none ∧
    ∀ rows1 rows2 : List RawRow,
      loadMission spec (rows1 ++ raw :: rows2) = loadMission spec (rows1 ++ rows2) := by
  have hnone : processRow spec raw = none := by
    simp only [processRow]
    split
    · rfl
    · split
      · rfl
      next lc heq =>
        rw [if_pos]
        apply List.all_eq_true.mpr
        intro fv hfv
        rcases List.mem_map.mp hfv with ⟨fs, hfs, rfl⟩
        simp [h fs hfs]
  refine ⟨hnone, ?_⟩
  intro rows1 rows2
  simp only [loadMission, List.filterMap_append, List.filterMap_cons, hnone]

/-- Witness for C9: the all-missing confirmed row is dropped and loading
a file holding only that row yields the same frame as an empty file. -/
theorem C9_all_missing_witness :
    (∀ fs ∈ keplerSpec.featureMap, safeFloat (rowGet c9Raw fs.2) = none) ∧
    processRow keplerSpec c9Raw = none ∧
    loadMission keplerSpec [c9Raw] = loadMission keplerSpec [] :=
  have h : ∀ fs ∈ keplerSpec.featureMap, safeFloat (rowGet c9Raw fs.2) = none := by decide
  ⟨h, (C9_all_missing_row_dropped keplerSpec c9Raw h).1,
    (C9_all_missing_row_dropped keplerSpec c9Raw h).2 [] []⟩

/-- C10: the two copies of the confidence function —
astrum_ai.common.compute_confidence and
backend.model_service.compute_confidence — are extensionally equal: on
every input they either both raise (none) or both return the same value. -/
theorem C10_confidence_copies_equal (v : FloatVal) (c f : ℚ) :
    Backend.computeConfidence v c f = AstrumAI.computeConfidence v c f := by
  cases v <;> rfl

end Astrum
